import Mathlib

/-!
Shallow embedding of the e-commerce backend in src/main.py.

Python unbounded ints are modelled as Int; Python floats carrying money
amounts are idealised as exact rationals (ℚ); Python round(x, 2), which
rounds half to even, is modelled by round2 below.  The wall-clock
timestamp produced by datetime.now().isoformat() is an external input and
is passed to the checkout operation as an explicit String parameter.
HTTPException raises are modelled as Except errors; since every raise in
the source happens before any global rebinding, a failing endpoint leaves
the state unchanged.
-/

/-- Mirrors the pydantic model Producto (id, nombre, precio, stock). -/
structure Producto where
  id : Int
  nombre : String
  precio : ℚ
  stock : Int
deriving DecidableEq

/-- Mirrors the pydantic model ItemCarrito (producto_id, cantidad). -/
structure ItemCarrito where
  producto_id : Int
  cantidad : Int
deriving DecidableEq

/-- Mirrors the pydantic model Carrito (id, items, total), total defaulting to 0.0. -/
structure Carrito where
  id : Int
  items : List ItemCarrito := []
  total : ℚ := 0
deriving DecidableEq

/-- Mirrors the pydantic model ItemPedido (producto_id, cantidad, precio_congelado). -/
structure ItemPedido where
  producto_id : Int
  cantidad : Int
  precio_congelado : ℚ
deriving DecidableEq

/-- Mirrors the pydantic model Pedido (id, items, total_pedido, fecha, estado). -/
structure Pedido where
  id : Int
  items : List ItemPedido
  total_pedido : ℚ
  fecha : String
  estado : String
deriving DecidableEq

/-- Floor of a rational, computed from numerator and denominator with
floor division (Python's // semantics on the exact value). -/
def floorQ (q : ℚ) : Int := Int.fdiv q.num (q.den : Int)

/-- Round a rational to the nearest integer, halves to the even neighbour:
the rounding mode of Python's builtin round. -/
def roundHalfEven (q : ℚ) : Int :=
  let n := floorQ q
  let frac := q - (n : ℚ)
  if frac < (1 : ℚ)/2 then n
  else if (1 : ℚ)/2 < frac then n + 1
  else if n % 2 = 0 then n else n + 1

/-- Python round(x, 2): round to two decimal places. -/
def round2 (x : ℚ) : ℚ := ((roundHalfEven (x * 100) : ℚ)) / 100

/-- fn_buscar_producto: filter by id and take the first hit, None if empty. -/
def fn_buscar_producto (lista_productos : List Producto) (id_producto : Int) :
    Option Producto :=
  (lista_productos.filter (fun p => p.id == id_producto)).head?

/-- fn_actualizar_stock: list comprehension copying every product, the one
with the matching id getting stock - cantidad_a_restar. -/
def fn_actualizar_stock (lista_productos : List Producto) (id_producto : Int)
    (cantidad_a_restar : Int) : List Producto :=
  lista_productos.map (fun p =>
    if p.id != id_producto then p
    else { p with stock := p.stock - cantidad_a_restar })

/-- fn_agregar_producto: append the new product. -/
def fn_agregar_producto (lista_productos : List Producto) (producto_nuevo : Producto) :
    List Producto :=
  lista_productos ++ [producto_nuevo]

/-- fn_buscar_carrito: filter by id and take the first hit, None if empty. -/
def fn_buscar_carrito (lista_carritos : List Carrito) (carrito_id : Int) :
    Option Carrito :=
  (lista_carritos.filter (fun c => c.id == carrito_id)).head?

/-- fn_recalcular_total: sum price times quantity over the cart items,
an item whose product id resolves to no product contributing 0.0,
rounded to two decimals. -/
def fn_recalcular_total (carrito : Carrito) (lista_productos : List Producto) : ℚ :=
  round2 ((carrito.items.map (fun item =>
    match fn_buscar_producto lista_productos item.producto_id with
    | some producto => producto.precio * (item.cantidad : ℚ)
    | none => 0)).sum)

/-- fn_agregar_item_al_carrito: merge by product id (update quantity in
place if an entry exists, append otherwise), then recompute the total. -/
def fn_agregar_item_al_carrito (carrito : Carrito) (item_nuevo : ItemCarrito)
    (lista_productos : List Producto) : Carrito :=
  let item_existente :=
    carrito.items.find? (fun item => item.producto_id == item_nuevo.producto_id)
  let nueva_lista_items :=
    match item_existente with
    | some _ =>
        carrito.items.map (fun item =>
          if item.producto_id == item_nuevo.producto_id
          then { item with cantidad := item.cantidad + item_nuevo.cantidad }
          else item)
    | none => carrito.items ++ [item_nuevo]
  let carrito_con_items_actualizados := { carrito with items := nueva_lista_items }
  { carrito_con_items_actualizados with
      total := fn_recalcular_total carrito_con_items_actualizados lista_productos }

/-- fn_actualizar_carrito_en_db: replace the cart with the matching id. -/
def fn_actualizar_carrito_en_db (lista_carritos : List Carrito)
    (carrito_actualizado : Carrito) : List Carrito :=
  lista_carritos.map (fun c =>
    if c.id == carrito_actualizado.id then carrito_actualizado else c)

/-- fn_limpiar_carrito: same cart with empty items and total 0.0. -/
def fn_limpiar_carrito (carrito : Carrito) : Carrito :=
  { carrito with items := [], total := 0 }

/-- fn_convertir_carrito_a_pedido: cart items become order items with the
product price frozen; an item whose product id resolves to no product is
silently dropped.  fecha is the external clock input. -/
def fn_convertir_carrito_a_pedido (carrito : Carrito) (lista_productos : List Producto)
    (nuevo_id_pedido : Int) (fecha : String) : Pedido :=
  { id := nuevo_id_pedido
    items := carrito.items.filterMap (fun item_c =>
      match fn_buscar_producto lista_productos item_c.producto_id with
      | some producto =>
          some { producto_id := item_c.producto_id
                 cantidad := item_c.cantidad
                 precio_congelado := producto.precio }
      | none => none)
    total_pedido := carrito.total
    fecha := fecha
    estado := "Pendiente" }

/-- fn_descontar_stock_de_pedido: functools.reduce of fn_actualizar_stock
over the cart items. -/
def fn_descontar_stock_de_pedido (lista_productos : List Producto)
    (carrito : Carrito) : List Producto :=
  carrito.items.foldl
    (fun productos_acumulados item_actual =>
      fn_actualizar_stock productos_acumulados
        item_actual.producto_id item_actual.cantidad)
    lista_productos

/-- fn_agregar_pedido_a_db: append the new order. -/
def fn_agregar_pedido_a_db (lista_pedidos : List Pedido) (pedido : Pedido) :
    List Pedido :=
  lista_pedidos ++ [pedido]

/-- The three seeded products of db_productos. -/
def db_productos_init : List Producto :=
  [ { id := 1, nombre := "Laptop Gamer", precio := 1200, stock := 10 },
    { id := 2, nombre := "Teclado Mecánico", precio := 150, stock := 25 },
    { id := 3, nombre := "Mouse Óptico", precio := 91/2, stock := 50 } ]

/-- The single pre-provisioned cart of db_carritos. -/
def db_carritos_init : List Carrito := [ { id := 1 } ]

/-- The whole mutable state: the three module-level lists. -/
structure DB where
  db_productos : List Producto
  db_carritos : List Carrito
  db_pedidos : List Pedido
deriving DecidableEq

/-- The initial state of the module: seeded products, one empty cart, no orders. -/
def initDB : DB :=
  { db_productos := db_productos_init
    db_carritos := db_carritos_init
    db_pedidos := [] }

/-- The HTTPException detail strings raised by the endpoints, as an error kind. -/
inductive ApiError where
  | productoNoEncontrado
  | idProductoYaExiste
  | stockInsuficiente
  | carritoNoEncontrado
  | carritoVacio
deriving DecidableEq

/-- GET /productos. -/
def obtener_todos_los_productos (db : DB) : List Producto := db.db_productos

/-- GET /productos/(producto_id). -/
def obtener_producto_por_id (db : DB) (producto_id : Int) : Except ApiError Producto :=
  match fn_buscar_producto db.db_productos producto_id with
  | none => .error .productoNoEncontrado
  | some producto => .ok producto

/-- POST /productos: reject a duplicate id, otherwise append. -/
def crear_nuevo_producto (db : DB) (producto : Producto) :
    Except ApiError (Producto × DB) :=
  match fn_buscar_producto db.db_productos producto.id with
  | some _ => .error .idProductoYaExiste
  | none =>
      .ok (producto,
        { db with db_productos := fn_agregar_producto db.db_productos producto })

/-- PUT /productos/(producto_id)/descontar-stock: 404 if the id is absent,
400 if stock < cantidad, otherwise commit fn_actualizar_stock. -/
def descontar_stock_de_producto (db : DB) (producto_id : Int) (cantidad : Int) :
    Except ApiError (Option Producto × DB) :=
  match fn_buscar_producto db.db_productos producto_id with
  | none => .error .productoNoEncontrado
  | some producto =>
      if producto.stock < cantidad then .error .stockInsuficiente
      else
        let nuevos := fn_actualizar_stock db.db_productos producto_id cantidad
        .ok (fn_buscar_producto nuevos producto_id,
             { db with db_productos := nuevos })

/-- GET /carrito/(carrito_id). -/
def obtener_carrito (db : DB) (carrito_id : Int) : Except ApiError Carrito :=
  match fn_buscar_carrito db.db_carritos carrito_id with
  | none => .error .carritoNoEncontrado
  | some carrito => .ok carrito

/-- POST /carrito/(carrito_id)/agregar: resolve cart and product, check
stock >= cantidad, then merge the item and persist the cart. -/
def agregar_item_al_carrito (db : DB) (carrito_id : Int) (item : ItemCarrito) :
    Except ApiError (Carrito × DB) :=
  match fn_buscar_carrito db.db_carritos carrito_id with
  | none => .error .carritoNoEncontrado
  | some carrito_actual =>
      match fn_buscar_producto db.db_productos item.producto_id with
      | none => .error .productoNoEncontrado
      | some producto =>
          if producto.stock < item.cantidad then .error .stockInsuficiente
          else
            let carrito_actualizado :=
              fn_agregar_item_al_carrito carrito_actual item db.db_productos
            .ok (carrito_actualizado,
              { db with db_carritos :=
                  fn_actualizar_carrito_en_db db.db_carritos carrito_actualizado })

/-- GET /pedidos. -/
def obtener_todos_los_pedidos (db : DB) : List Pedido := db.db_pedidos

/-- POST /carrito/(carrito_id)/checkout: resolve the cart, reject an empty
one, batch-decrement stock, snapshot the cart into an order with frozen
prices, append the order, clear the cart, commit the three lists. -/
def procesar_checkout_carrito (db : DB) (carrito_id : Int) (fecha : String) :
    Except ApiError (Pedido × DB) :=
  match fn_buscar_carrito db.db_carritos carrito_id with
  | none => .error .carritoNoEncontrado
  | some carrito =>
      if carrito.items.isEmpty then .error .carritoVacio
      else
        let nueva_lista_productos := fn_descontar_stock_de_pedido db.db_productos carrito
        let nuevo_id : Int := db.db_pedidos.length + 1
        let nuevo_pedido := fn_convertir_carrito_a_pedido carrito db.db_productos nuevo_id fecha
        let nueva_lista_pedidos := fn_agregar_pedido_a_db db.db_pedidos nuevo_pedido
        let carrito_limpiado := fn_limpiar_carrito carrito
        let nueva_lista_carritos := fn_actualizar_carrito_en_db db.db_carritos carrito_limpiado
        .ok (nuevo_pedido,
          { db_productos := nueva_lista_productos
            db_carritos := nueva_lista_carritos
            db_pedidos := nueva_lista_pedidos })

/-- One public operation of the HTTP surface, with its request payload;
checkout carries the clock reading as an extra input. -/
inductive Op where
  | listarProductos
  | obtenerProducto (producto_id : Int)
  | crearProducto (producto : Producto)
  | descontarStock (producto_id : Int) (cantidad : Int)
  | verCarrito (carrito_id : Int)
  | agregarItem (carrito_id : Int) (item : ItemCarrito)
  | listarPedidos
  | checkout (carrito_id : Int) (fecha : String)
deriving DecidableEq

/-- The state transition of one operation: a failing endpoint raises before
any global rebinding, so it leaves the state unchanged. -/
def applyOp (db : DB) (op : Op) : DB :=
  match op with
  | .listarProductos => db
  | .obtenerProducto _ => db
  | .crearProducto p =>
      match crear_nuevo_producto db p with
      | .ok (_, db') => db'
      | .error _ => db
  | .descontarStock idp cantidad =>
      match descontar_stock_de_producto db idp cantidad with
      | .ok (_, db') => db'
      | .error _ => db
  | .verCarrito _ => db
  | .agregarItem cid item =>
      match agregar_item_al_carrito db cid item with
      | .ok (_, db') => db'
      | .error _ => db
  | .listarPedidos => db
  | .checkout cid fecha =>
      match procesar_checkout_carrito db cid fecha with
      | .ok (_, db') => db'
      | .error _ => db

/-- States reachable from the initial state by the public operations. -/
inductive Reachable : DB → Prop where
  | init : Reachable initDB
  | step (db : DB) (op : Op) : Reachable db → Reachable (applyOp db op)

lemma floorQ_intCast (n : ℤ) : floorQ ((n : ℚ)) = n := by
  simp [floorQ, Rat.num_intCast, Rat.den_intCast]

lemma roundHalfEven_intCast (n : ℤ) : roundHalfEven ((n : ℚ)) = n := by
  norm_num [roundHalfEven, floorQ_intCast]

lemma round2_intCast (n : ℤ) : round2 ((n : ℚ)) = n := by
  have h1 : ((n : ℚ)) * 100 = (((n * 100 : ℤ)) : ℚ) := by push_cast; ring
  rw [round2, h1, roundHalfEven_intCast]
  push_cast
  field_simp

lemma round2_zero : round2 0 = 0 := by
  simpa using round2_intCast 0

/-- Total quantity that the cart items request for one product id. -/
def sumCant (items : List ItemCarrito) (pid : Int) : Int :=
  ((items.filter (fun it => it.producto_id == pid)).map (fun it => it.cantidad)).sum

lemma producto_eta (p : Producto) : ({ p with stock := p.stock }) = p := rfl

/-- The reduce of fn_actualizar_stock over the cart items decrements every
product, in one batch, by the total quantity requested for its id. -/
lemma descontar_fold_eq_map (items : List ItemCarrito) (lista : List Producto) :
    items.foldl
      (fun productos_acumulados item_actual =>
        fn_actualizar_stock productos_acumulados
          item_actual.producto_id item_actual.cantidad)
      lista
    = lista.map (fun p => { p with stock := p.stock - sumCant items p.id }) := by
  induction items generalizing lista with
  | nil =>
      simp [sumCant, producto_eta]
  | cons it its ih =>
      rw [List.foldl_cons, ih]
      unfold fn_actualizar_stock
      rw [List.map_map]
      refine List.map_congr_left (fun p _ => ?_)
      simp only [Function.comp_apply]
      by_cases h : p.id = it.producto_id
      · simp only [h, bne_self_eq_false, Bool.false_eq_true, if_false]
        simp [sumCant, List.filter_cons, h]
        omega
      · have hb : (p.id != it.producto_id) = true := by
          simpa using h
        simp only [hb, if_true]
        have hb2 : (it.producto_id == p.id) = false := by
          simp [Ne.symm h]
        simp [sumCant, List.filter_cons, hb2]

lemma descontar_eq_map (lista : List Producto) (carrito : Carrito) :
    fn_descontar_stock_de_pedido lista carrito
      = lista.map (fun p => { p with stock := p.stock - sumCant carrito.items p.id }) := by
  unfold fn_descontar_stock_de_pedido
  exact descontar_fold_eq_map carrito.items lista

lemma buscar_carrito_some (l : List Carrito) (cid : Int) (c : Carrito)
    (h : fn_buscar_carrito l cid = some c) : c ∈ l ∧ c.id = cid := by
  unfold fn_buscar_carrito at h
  have hm : c ∈ l.filter (fun x => x.id == cid) :=
    List.mem_of_mem_head? (by rw [h]; exact Option.mem_some_iff.mpr rfl)
  rw [List.mem_filter] at hm
  exact ⟨hm.1, by simpa using hm.2⟩

lemma buscar_producto_some (l : List Producto) (idp : Int) (p : Producto)
    (h : fn_buscar_producto l idp = some p) : p ∈ l ∧ p.id = idp := by
  unfold fn_buscar_producto at h
  have hm : p ∈ l.filter (fun x => x.id == idp) :=
    List.mem_of_mem_head? (by rw [h]; exact Option.mem_some_iff.mpr rfl)
  rw [List.mem_filter] at hm
  exact ⟨hm.1, by simpa using hm.2⟩

/-- C1.  For every successful checkout, every product's stock after the
checkout equals its stock before minus the total quantity the cart's items
request for its id; a product referenced by no cart item is carried over
unchanged. -/
theorem C1_stock_conservation (db : DB) (carrito_id : Int) (fecha : String)
    (ped : Pedido) (db' : DB)
    (h : procesar_checkout_carrito db carrito_id fecha = .ok (ped, db')) :
    ∃ carrito, fn_buscar_carrito db.db_carritos carrito_id = some carrito ∧
      db'.db_productos = db.db_productos.map
        (fun p => { p with stock := p.stock - sumCant carrito.items p.id }) ∧
      ∀ p ∈ db.db_productos,
        (∀ it ∈ carrito.items, it.producto_id ≠ p.id) → p ∈ db'.db_productos := by
  unfold procesar_checkout_carrito at h
  split at h
  · exact absurd h (by simp)
  · rename_i carrito hb
    split at h
    · exact absurd h (by simp)
    · simp only [Except.ok.injEq, Prod.mk.injEq] at h
      obtain ⟨-, hdb⟩ := h
      refine ⟨carrito, hb, ?_, ?_⟩
      · rw [← hdb]
        exact descontar_eq_map db.db_productos carrito
      · intro p hp hnone
        have hz : sumCant carrito.items p.id = 0 := by
          unfold sumCant
          have : carrito.items.filter (fun it => it.producto_id == p.id) = [] := by
            rw [List.filter_eq_nil_iff]
            intro it hit
            simpa using hnone it hit
          rw [this]; rfl
        rw [← hdb]
        show p ∈ fn_descontar_stock_de_pedido db.db_productos carrito
        rw [descontar_eq_map]
        have : ({ p with stock := p.stock - sumCant carrito.items p.id }) = p := by
          rw [hz, sub_zero]
        rw [← this]
        exact List.mem_map_of_mem _ hp

/-- A concrete fixture cart: cart 1 holding one keyboard (product 2). -/
def carritoConTeclado : Carrito :=
  { id := 1, items := [ { producto_id := 2, cantidad := 1 } ], total := 150 }

/-- A concrete fixture state: seeded products, the fixture cart, no orders. -/
def dbConTeclado : DB :=
  { db_productos := db_productos_init, db_carritos := [carritoConTeclado], db_pedidos := [] }

/-- Witness for C1 at a concrete state: cart 1 holds one keyboard, checkout
succeeds and the product list is decremented accordingly. -/
theorem C1_stock_conservation_witness :
    ∃ ped db', procesar_checkout_carrito dbConTeclado 1 "2024-01-01T00:00:00"
        = .ok (ped, db') ∧
      ∃ carrito, fn_buscar_carrito dbConTeclado.db_carritos 1 = some carrito ∧
        db'.db_productos = dbConTeclado.db_productos.map
          (fun p => { p with stock := p.stock - sumCant carrito.items p.id }) := by
  refine ⟨_, _, rfl, ?_⟩
  have h := C1_stock_conservation dbConTeclado 1 "2024-01-01T00:00:00" _ _ rfl
  obtain ⟨c, hc, hmap, -⟩ := h
  exact ⟨c, hc, hmap⟩

lemma agregar_item_items_nuevo (carrito : Carrito) (item : ItemCarrito)
    (lista : List Producto)
    (h : ∀ it ∈ carrito.items, it.producto_id ≠ item.producto_id) :
    (fn_agregar_item_al_carrito carrito item lista).items = carrito.items ++ [item] := by
  unfold fn_agregar_item_al_carrito
  have hf : carrito.items.find? (fun it => it.producto_id == item.producto_id) = none :=
    List.find?_eq_none.mpr (fun it hit => by simpa using h it hit)
  simp only [hf]

lemma agregar_item_items_existente (carrito : Carrito) (item : ItemCarrito)
    (lista : List Producto) (x : ItemCarrito)
    (h : carrito.items.find? (fun it => it.producto_id == item.producto_id) = some x) :
    (fn_agregar_item_al_carrito carrito item lista).items
      = carrito.items.map (fun it =>
          if it.producto_id == item.producto_id
          then { it with cantidad := it.cantidad + item.cantidad }
          else it) := by
  unfold fn_agregar_item_al_carrito
  simp only [h]

/-- C4.  Adding the same product id twice, with quantities q1 and q2, to a
cart holding no entry for that id yields the original entries unchanged in
their original order followed by exactly one appended entry for that id,
carrying quantity q1 + q2. -/
theorem C4_merge_invariant (carrito : Carrito) (pid q1 q2 : Int)
    (lista lista2 : List Producto)
    (h : ∀ it ∈ carrito.items, it.producto_id ≠ pid) :
    (fn_agregar_item_al_carrito (fn_agregar_item_al_carrito carrito ⟨pid, q1⟩ lista)
        ⟨pid, q2⟩ lista2).items
      = carrito.items ++ [⟨pid, q1 + q2⟩] ∧
    ((fn_agregar_item_al_carrito (fn_agregar_item_al_carrito carrito ⟨pid, q1⟩ lista)
        ⟨pid, q2⟩ lista2).items.filter (fun it => it.producto_id == pid))
      = [⟨pid, q1 + q2⟩] := by
  have h1 : (fn_agregar_item_al_carrito carrito ⟨pid, q1⟩ lista).items
      = carrito.items ++ [⟨pid, q1⟩] :=
    agregar_item_items_nuevo carrito ⟨pid, q1⟩ lista h
  have hf : (fn_agregar_item_al_carrito carrito ⟨pid, q1⟩ lista).items.find?
      (fun it => it.producto_id == pid) = some ⟨pid, q1⟩ := by
    rw [h1, List.find?_append]
    have hnone : carrito.items.find? (fun it => it.producto_id == pid) = none :=
      List.find?_eq_none.mpr (fun it hit => by simpa using h it hit)
    rw [hnone]
    simp
  have h2 : (fn_agregar_item_al_carrito (fn_agregar_item_al_carrito carrito ⟨pid, q1⟩ lista)
      ⟨pid, q2⟩ lista2).items
      = carrito.items ++ [⟨pid, q1 + q2⟩] := by
    rw [agregar_item_items_existente _ _ _ _ hf, h1, List.map_append]
    congr 1
    · have hmap : ∀ it ∈ carrito.items,
          (if (it.producto_id == pid) = true
           then ({ it with cantidad := it.cantidad + q2 } : ItemCarrito)
           else it) = id it := by
        intro it hit
        have : (it.producto_id == pid) = false := by simpa using h it hit
        simp [this]
      calc carrito.items.map (fun it =>
              if (it.producto_id == pid) = true
              then ({ it with cantidad := it.cantidad + q2 } : ItemCarrito)
              else it)
          = carrito.items.map id := List.map_congr_left hmap
        _ = carrito.items := List.map_id _
    · simp
  refine ⟨h2, ?_⟩
  rw [h2, List.filter_append]
  have : carrito.items.filter (fun it => it.producto_id == pid) = [] := by
    rw [List.filter_eq_nil_iff]
    intro it hit
    simpa using h it hit
  rw [this]
  simp

/-- Witness for C4: a cart holding two mice gets two keyboard adds of
quantities 1 and 4, ending with one keyboard entry of quantity 5 at the
end and the mouse entry untouched in front. -/
theorem C4_merge_invariant_witness :
    (fn_agregar_item_al_carrito
        (fn_agregar_item_al_carrito ⟨1, [⟨3, 2⟩], 91⟩ ⟨2, 1⟩ db_productos_init)
        ⟨2, 4⟩ db_productos_init).items
      = [⟨3, 2⟩, ⟨2, 5⟩] ∧
    ((fn_agregar_item_al_carrito
        (fn_agregar_item_al_carrito ⟨1, [⟨3, 2⟩], 91⟩ ⟨2, 1⟩ db_productos_init)
        ⟨2, 4⟩ db_productos_init).items.filter (fun it => it.producto_id == 2))
      = [⟨2, 5⟩] := by
  have h := C4_merge_invariant ⟨1, [⟨3, 2⟩], 91⟩ 2 1 4 db_productos_init db_productos_init
    (by decide)
  norm_num at h
  exact h

/-- C5.  Checking out a cart whose item list is empty fails with the
Empty-Cart error and leaves the whole state, in particular the order
list, exactly as it was. -/
theorem C5_empty_cart_checkout (db : DB) (carrito_id : Int) (fecha : String)
    (carrito : Carrito)
    (hb : fn_buscar_carrito db.db_carritos carrito_id = some carrito)
    (he : carrito.items = []) :
    procesar_checkout_carrito db carrito_id fecha = .error .carritoVacio ∧
    applyOp db (.checkout carrito_id fecha) = db := by
  have h1 : procesar_checkout_carrito db carrito_id fecha = .error .carritoVacio := by
    unfold procesar_checkout_carrito
    split
    · rename_i hn; rw [hn] at hb; exact absurd hb (by simp)
    · rename_i c hc
      rw [hc] at hb
      injection hb with hcc
      subst hcc
      rw [he]
      simp
  exact ⟨h1, by simp only [applyOp, h1]⟩

/-- Witness for C5: checking out the initial, empty cart 1 fails with
Empty-Cart and the initial state is unchanged. -/
theorem C5_empty_cart_checkout_witness :
    procesar_checkout_carrito initDB 1 "2024-01-01T00:00:00" = .error .carritoVacio ∧
    applyOp initDB (.checkout 1 "2024-01-01T00:00:00") = initDB :=
  C5_empty_cart_checkout initDB 1 "2024-01-01T00:00:00" { id := 1 } rfl rfl

/-- C8.  An add-item request whose quantity exceeds the referenced
product's stock fails with the Insufficient-Stock error and leaves the
whole state, in particular the cart and every stock, unchanged. -/
theorem C8_insufficient_stock_add (db : DB) (carrito_id : Int) (item : ItemCarrito)
    (carrito : Carrito) (producto : Producto)
    (hc : fn_buscar_carrito db.db_carritos carrito_id = some carrito)
    (hp : fn_buscar_producto db.db_productos item.producto_id = some producto)
    (hs : producto.stock < item.cantidad) :
    agregar_item_al_carrito db carrito_id item = .error .stockInsuficiente ∧
    applyOp db (.agregarItem carrito_id item) = db := by
  have h1 : agregar_item_al_carrito db carrito_id item = .error .stockInsuficiente := by
    unfold agregar_item_al_carrito
    split
    · rename_i hn; rw [hn] at hc; exact absurd hc (by simp)
    · rename_i c hcc
      split
      · rename_i hn; rw [hn] at hp; exact absurd hp (by simp)
      · rename_i p hpp
        rw [hpp] at hp
        injection hp with hp2
        subst hp2
        rw [if_pos hs]
  exact ⟨h1, by simp only [applyOp, h1]⟩

/-- Witness for C8: adding 11 laptops to the initial empty cart, with only
10 in stock, fails with Insufficient-Stock and changes nothing. -/
theorem C8_insufficient_stock_add_witness :
    agregar_item_al_carrito initDB 1 ⟨1, 11⟩ = .error .stockInsuficiente ∧
    applyOp initDB (.agregarItem 1 ⟨1, 11⟩) = initDB :=
  C8_insufficient_stock_add initDB 1 ⟨1, 11⟩ { id := 1 }
    { id := 1, nombre := "Laptop Gamer", precio := 1200, stock := 10 } rfl rfl (by decide)

lemma crear_ok_shape (db : DB) (p x : Producto) (db' : DB)
    (h : crear_nuevo_producto db p = .ok (x, db')) :
    x = p ∧ fn_buscar_producto db.db_productos p.id = none ∧
      db' = { db with db_productos := db.db_productos ++ [p] } := by
  unfold crear_nuevo_producto at h
  split at h
  · exact absurd h (by simp)
  · rename_i hb
    simp only [Except.ok.injEq, Prod.mk.injEq] at h
    exact ⟨h.1.symm, hb, h.2.symm⟩

lemma descontar_ok_shape (db : DB) (idp c : Int) (x : Option Producto) (db' : DB)
    (h : descontar_stock_de_producto db idp c = .ok (x, db')) :
    ∃ producto, fn_buscar_producto db.db_productos idp = some producto ∧
      ¬(producto.stock < c) ∧
      db' = { db with db_productos := fn_actualizar_stock db.db_productos idp c } := by
  unfold descontar_stock_de_producto at h
  split at h
  · exact absurd h (by simp)
  · rename_i producto hb
    split at h
    · exact absurd h (by simp)
    · rename_i hs
      simp only [Except.ok.injEq, Prod.mk.injEq] at h
      exact ⟨producto, hb, hs, h.2.symm⟩

lemma agregar_ok_shape (db : DB) (cid : Int) (item : ItemCarrito) (x : Carrito) (db' : DB)
    (h : agregar_item_al_carrito db cid item = .ok (x, db')) :
    ∃ carrito producto, fn_buscar_carrito db.db_carritos cid = some carrito ∧
      fn_buscar_producto db.db_productos item.producto_id = some producto ∧
      ¬(producto.stock < item.cantidad) ∧
      x = fn_agregar_item_al_carrito carrito item db.db_productos ∧
      db' = { db with db_carritos := fn_actualizar_carrito_en_db db.db_carritos x } := by
  unfold agregar_item_al_carrito at h
  split at h
  · exact absurd h (by simp)
  · rename_i carrito hc
    split at h
    · exact absurd h (by simp)
    · rename_i producto hp
      split at h
      · exact absurd h (by simp)
      · rename_i hs
        simp only [Except.ok.injEq, Prod.mk.injEq] at h
        obtain ⟨hx, hdb⟩ := h
        exact ⟨carrito, producto, hc, hp, hs, hx.symm, by rw [← hdb, ← hx]⟩

lemma checkout_ok_shape (db : DB) (cid : Int) (fecha : String) (x : Pedido) (db' : DB)
    (h : procesar_checkout_carrito db cid fecha = .ok (x, db')) :
    ∃ carrito, fn_buscar_carrito db.db_carritos cid = some carrito ∧
      carrito.items.isEmpty = false ∧
      x = fn_convertir_carrito_a_pedido carrito db.db_productos
            ((db.db_pedidos.length : Int) + 1) fecha ∧
      db' = { db_productos := fn_descontar_stock_de_pedido db.db_productos carrito,
              db_carritos :=
                fn_actualizar_carrito_en_db db.db_carritos (fn_limpiar_carrito carrito),
              db_pedidos := db.db_pedidos ++ [x] } := by
  unfold procesar_checkout_carrito at h
  split at h
  · exact absurd h (by simp)
  · rename_i carrito hc
    split at h
    · exact absurd h (by simp)
    · rename_i he
      simp only [Except.ok.injEq, Prod.mk.injEq] at h
      obtain ⟨hx, hdb⟩ := h
      refine ⟨carrito, hc, by simpa using he, hx.symm, ?_⟩
      rw [← hdb, ← hx]
      rfl

/-- Every operation either leaves the order list alone or appends to it:
an order, once created, is never modified or removed. -/
lemma applyOp_pedidos_append (db : DB) (op : Op) :
    ∃ nuevos, (applyOp db op).db_pedidos = db.db_pedidos ++ nuevos := by
  cases op with
  | listarProductos => exact ⟨[], by simp [applyOp]⟩
  | obtenerProducto idp => exact ⟨[], by simp [applyOp]⟩
  | crearProducto p =>
      cases hq : crear_nuevo_producto db p with
      | error e => exact ⟨[], by simp [applyOp, hq]⟩
      | ok v =>
          obtain ⟨-, -, hdb⟩ := crear_ok_shape db p v.1 v.2 (by rw [hq])
          exact ⟨[], by simp [applyOp, hq, hdb]⟩
  | descontarStock idp c =>
      cases hq : descontar_stock_de_producto db idp c with
      | error e => exact ⟨[], by simp [applyOp, hq]⟩
      | ok v =>
          obtain ⟨-, -, -, hdb⟩ := descontar_ok_shape db idp c v.1 v.2 (by rw [hq])
          exact ⟨[], by simp [applyOp, hq, hdb]⟩
  | verCarrito cid => exact ⟨[], by simp [applyOp]⟩
  | agregarItem cid item =>
      cases hq : agregar_item_al_carrito db cid item with
      | error e => exact ⟨[], by simp [applyOp, hq]⟩
      | ok v =>
          obtain ⟨-, -, -, -, -, -, hdb⟩ := agregar_ok_shape db cid item v.1 v.2 (by rw [hq])
          exact ⟨[], by simp [applyOp, hq, hdb]⟩
  | listarPedidos => exact ⟨[], by simp [applyOp]⟩
  | checkout cid fecha =>
      cases hq : procesar_checkout_carrito db cid fecha with
      | error e => exact ⟨[], by simp [applyOp, hq]⟩
      | ok v =>
          obtain ⟨carrito, -, -, -, hdb⟩ := checkout_ok_shape db cid fecha v.1 v.2 (by rw [hq])
          exact ⟨[v.1], by simp [applyOp, hq, hdb]⟩

/-- C6.  Each item of an order created by a successful checkout freezes
the price the referenced product had in the pre-checkout product list,
and every public operation only ever appends to the order list, so the
recorded items of previously created orders are never changed by any
later operation, in particular not by any product price change. -/
theorem C6_price_freezing (db : DB) (carrito_id : Int) (fecha : String)
    (ped : Pedido) (db' : DB)
    (h : procesar_checkout_carrito db carrito_id fecha = .ok (ped, db')) :
    (∀ itp ∈ ped.items, ∃ producto,
        fn_buscar_producto db.db_productos itp.producto_id = some producto ∧
        itp.precio_congelado = producto.precio) ∧
    (∀ (db2 : DB) (op : Op),
        ∃ nuevos, (applyOp db2 op).db_pedidos = db2.db_pedidos ++ nuevos) := by
  obtain ⟨carrito, -, -, hped, -⟩ := checkout_ok_shape db carrito_id fecha ped db' h
  refine ⟨?_, applyOp_pedidos_append⟩
  intro itp hitp
  rw [hped] at hitp
  unfold fn_convertir_carrito_a_pedido at hitp
  simp only [List.mem_filterMap] at hitp
  obtain ⟨item_c, -, hitem⟩ := hitp
  cases hb : fn_buscar_producto db.db_productos item_c.producto_id with
  | none => rw [hb] at hitem; exact absurd hitem (by simp)
  | some producto =>
      rw [hb] at hitem
      simp only [Option.some.injEq] at hitem
      refine ⟨producto, ?_, ?_⟩
      · rw [← hitem]
        exact hb
      · rw [← hitem]

/-- Witness for C6 at the fixture state: the keyboard order item freezes
price 150, the keyboard's price in the pre-checkout product list. -/
theorem C6_price_freezing_witness :
    ∃ ped db', procesar_checkout_carrito dbConTeclado 1 "2024-01-01T00:00:00"
        = .ok (ped, db') ∧
      ∀ itp ∈ ped.items, ∃ producto,
        fn_buscar_producto dbConTeclado.db_productos itp.producto_id = some producto ∧
        itp.precio_congelado = producto.precio := by
  refine ⟨_, _, rfl, ?_⟩
  exact (C6_price_freezing dbConTeclado 1 "2024-01-01T00:00:00" _ _ rfl).1

/-- C7 counterexample: a successful checkout at a concrete state creates
an order whose status is the string Pendiente, not Completed. -/
theorem C7_counterexample :
    ∃ ped db', procesar_checkout_carrito dbConTeclado 1 "2024-01-01T00:00:00"
        = .ok (ped, db') ∧
      ped.estado = "Pendiente" ∧ ped.estado ≠ "Completed" := by
  refine ⟨_, _, rfl, rfl, ?_⟩
  decide

/-- C7 amended: every order created by a successful checkout has status
Pendiente. -/
theorem C7_estado_pendiente (db : DB) (carrito_id : Int) (fecha : String)
    (ped : Pedido) (db' : DB)
    (h : procesar_checkout_carrito db carrito_id fecha = .ok (ped, db')) :
    ped.estado = "Pendiente" := by
  obtain ⟨carrito, -, -, hped, -⟩ := checkout_ok_shape db carrito_id fecha ped db' h
  rw [hped]
  rfl

/-- Witness for the amended C7 at the fixture state. -/
theorem C7_estado_pendiente_witness :
    ∃ ped db', procesar_checkout_carrito dbConTeclado 1 "2024-01-01T00:00:00"
        = .ok (ped, db') ∧ ped.estado = "Pendiente" := by
  refine ⟨_, _, rfl, ?_⟩
  exact C7_estado_pendiente dbConTeclado 1 "2024-01-01T00:00:00" _ _ rfl

/-- Product lookup commutes with an id-preserving transformation of the
product list. -/
lemma buscar_producto_map (l : List Producto) (idp : Int) (f : Producto → Producto)
    (hid : ∀ p, (f p).id = p.id) :
    fn_buscar_producto (l.map f) idp = (fn_buscar_producto l idp).map f := by
  unfold fn_buscar_producto
  induction l with
  | nil => rfl
  | cons a l ih =>
      by_cases h : a.id = idp
      · simp [List.filter_cons, hid, h]
      · simpa [List.filter_cons, hid, h] using ih

lemma actualizar_stock_id_preserving (idp c : Int) (p : Producto) :
    ((fun q => if q.id != idp then q
               else { q with stock := q.stock - c }) p).id = p.id := by
  by_cases h : p.id = idp <;> simp [h]

/-- Looking up the adjusted product after fn_actualizar_stock yields the
old product with stock decreased by the raw difference. -/
lemma actualizar_stock_buscar (l : List Producto) (idp c : Int) (p : Producto)
    (hp : fn_buscar_producto l idp = some p) :
    fn_buscar_producto (fn_actualizar_stock l idp c) idp
      = some { p with stock := p.stock - c } := by
  unfold fn_actualizar_stock
  rw [buscar_producto_map l idp _ (actualizar_stock_id_preserving idp c), hp]
  have hpid : p.id = idp := (buscar_producto_some l idp p hp).2
  simp [hpid]

/-- C9 counterexample: product 1 exists in the initial state, yet the
descontar-stock operation on it with delta 11 does not succeed with the
raw difference; it fails with Insufficient-Stock, because the endpoint
pre-validates stock >= delta. -/
theorem C9_counterexample :
    (∃ p, fn_buscar_producto initDB.db_productos 1 = some p) ∧
    descontar_stock_de_producto initDB 1 11 = .error .stockInsuficiente := by
  exact ⟨⟨_, rfl⟩, rfl⟩

/-- C9 amended: the descontar-stock operation fails with Not-Found when
the id is absent, fails with Insufficient-Stock when the delta exceeds the
current stock, and otherwise succeeds committing fn_actualizar_stock,
whose raw arithmetic gives the product its old stock minus the delta;
the repository-level fn_actualizar_stock itself applies the raw
difference with no validation of its own. -/
theorem C9_adjust_stock (db : DB) (producto_id cantidad : Int) :
    (fn_buscar_producto db.db_productos producto_id = none →
      descontar_stock_de_producto db producto_id cantidad
        = .error .productoNoEncontrado) ∧
    (∀ producto, fn_buscar_producto db.db_productos producto_id = some producto →
      (producto.stock < cantidad →
        descontar_stock_de_producto db producto_id cantidad
          = .error .stockInsuficiente) ∧
      (¬producto.stock < cantidad →
        descontar_stock_de_producto db producto_id cantidad
          = .ok (some { producto with stock := producto.stock - cantidad },
              { db with db_productos :=
                  fn_actualizar_stock db.db_productos producto_id cantidad }))) ∧
    (∀ p ∈ db.db_productos, p.id = producto_id →
      ({ p with stock := p.stock - cantidad })
        ∈ fn_actualizar_stock db.db_productos producto_id cantidad) := by
  refine ⟨?_, ?_, ?_⟩
  · intro hn
    unfold descontar_stock_de_producto
    rw [hn]
  · intro producto hp
    constructor
    · intro hs
      unfold descontar_stock_de_producto
      simp only [hp]
      rw [if_pos hs]
    · intro hs
      unfold descontar_stock_de_producto
      simp only [hp]
      rw [if_neg hs, actualizar_stock_buscar db.db_productos producto_id cantidad producto hp]
  · intro p hp hid
    unfold fn_actualizar_stock
    have : ({ p with stock := p.stock - cantidad })
        = (fun q => if q.id != producto_id then q
                    else { q with stock := q.stock - cantidad }) p := by
      simp [hid]
    rw [this]
    exact List.mem_map_of_mem _ hp

/-- Witness for the amended C9: the three branches at concrete inputs; in
particular the successful adjustment of product 1 by 4 ends with stock 6. -/
theorem C9_adjust_stock_witness :
    descontar_stock_de_producto initDB 99 1 = .error .productoNoEncontrado ∧
    descontar_stock_de_producto initDB 1 11 = .error .stockInsuficiente ∧
    descontar_stock_de_producto initDB 1 4
      = .ok (some { id := 1, nombre := "Laptop Gamer", precio := 1200, stock := 10 - 4 },
          { initDB with db_productos := fn_actualizar_stock initDB.db_productos 1 4 }) := by
  refine ⟨(C9_adjust_stock initDB 99 1).1 rfl, ?_, ?_⟩
  · exact (((C9_adjust_stock initDB 1 11).2.1
      { id := 1, nombre := "Laptop Gamer", precio := 1200, stock := 10 } rfl).1 (by decide))
  · exact (((C9_adjust_stock initDB 1 4).2.1
      { id := 1, nombre := "Laptop Gamer", precio := 1200, stock := 10 } rfl).2 (by decide))

/-- The state reached from the initial state by adding 10 laptops to cart 1
twice (each add individually passes the stock >= quantity check against the
unchanged stock of 10, and the merge accumulates quantity 20) and then
checking out. -/
def dbStockNegativo : DB :=
  applyOp
    (applyOp (applyOp initDB (.agregarItem 1 ⟨1, 10⟩)) (.agregarItem 1 ⟨1, 10⟩))
    (.checkout 1 "2024-01-01T00:00:00")

/-- C2 fails on the code: a state with a negative stock (laptop stock -10)
is reachable from the initial state by public operations, because checkout
decrements stock without re-validating stock sufficiency. -/
theorem C2_negative_stock_reachable :
    Reachable dbStockNegativo ∧
    dbStockNegativo.db_productos.map (fun p => p.stock) = [-10, 25, 50] ∧
    ∃ p ∈ dbStockNegativo.db_productos, p.stock < 0 := by
  refine ⟨?_, rfl, ?_⟩
  · exact .step _ _ (.step _ _ (.step _ _ .init))
  · refine ⟨{ id := 1, nombre := "Laptop Gamer", precio := 1200, stock := -10 }, ?_, by decide⟩
    exact List.Mem.head _

/-- Every cart item of every cart references a product present in the
product list. -/
def itemsValid (db : DB) : Prop :=
  ∀ c ∈ db.db_carritos, ∀ it ∈ c.items,
    ∃ p, fn_buscar_producto db.db_productos it.producto_id = some p

/-- Every cart's stored total is the recomputation from its current items
and the current product prices. -/
def totalsValid (db : DB) : Prop :=
  ∀ c ∈ db.db_carritos, c.total = fn_recalcular_total c db.db_productos

/-- The recomputed total only depends on the per-item summands. -/
lemma recalcular_congr (c : Carrito) (l l' : List Producto)
    (h : ∀ it ∈ c.items,
      (match fn_buscar_producto l' it.producto_id with
       | some producto => producto.precio * (it.cantidad : ℚ)
       | none => 0)
      = (match fn_buscar_producto l it.producto_id with
         | some producto => producto.precio * (it.cantidad : ℚ)
         | none => 0)) :
    fn_recalcular_total c l' = fn_recalcular_total c l := by
  unfold fn_recalcular_total
  exact congrArg round2 (congrArg List.sum (List.map_congr_left h))

/-- An id- and price-preserving transformation of the product list leaves
every recomputed cart total unchanged. -/
lemma recalcular_map (c : Carrito) (l : List Producto) (f : Producto → Producto)
    (hid : ∀ p, (f p).id = p.id) (hpr : ∀ p, (f p).precio = p.precio) :
    fn_recalcular_total c (l.map f) = fn_recalcular_total c l := by
  apply recalcular_congr
  intro it hit
  rw [buscar_producto_map l _ f hid]
  cases fn_buscar_producto l it.producto_id with
  | none => rfl
  | some p => simp [hpr]

/-- A lookup that already resolves in the front list is unchanged by
appending products behind it. -/
lemma buscar_append_of_some (l l2 : List Producto) (idp : Int) (p : Producto)
    (hp : fn_buscar_producto l idp = some p) :
    fn_buscar_producto (l ++ l2) idp = some p := by
  unfold fn_buscar_producto at hp ⊢
  rw [List.filter_append]
  cases hf : l.filter (fun q => q.id == idp) with
  | nil => rw [hf] at hp; exact absurd hp (by simp)
  | cons a t => rw [hf] at hp; rw [List.cons_append]; simpa using hp

/-- A cart in the updated cart list is the replacement cart or an
untouched cart whose id differs from the replacement's. -/
lemma mem_actualizar_carrito (l : List Carrito) (u : Carrito) (c : Carrito)
    (h : c ∈ fn_actualizar_carrito_en_db l u) :
    c = u ∨ (c ∈ l ∧ c.id ≠ u.id) := by
  unfold fn_actualizar_carrito_en_db at h
  obtain ⟨x, hx, hcx⟩ := List.mem_map.mp h
  by_cases hb : x.id = u.id
  · left
    rw [← hcx]
    simp [hb]
  · right
    have : (x.id == u.id) = false := by simpa using hb
    rw [← hcx, this]
    exact ⟨by simpa using hx, by simpa using hb⟩

/-- Every item of the merged cart carries the added product id or a
product id already present in the cart. -/
lemma agregar_item_pids (carrito : Carrito) (item : ItemCarrito)
    (lista : List Producto) :
    ∀ it ∈ (fn_agregar_item_al_carrito carrito item lista).items,
      it.producto_id = item.producto_id ∨
      ∃ it0 ∈ carrito.items, it.producto_id = it0.producto_id := by
  intro it hit
  unfold fn_agregar_item_al_carrito at hit
  cases hf : carrito.items.find? (fun x => x.producto_id == item.producto_id) with
  | some x =>
      rw [hf] at hit
      simp only [List.mem_map] at hit
      obtain ⟨it0, hit0, heq⟩ := hit
      right
      refine ⟨it0, hit0, ?_⟩
      rw [← heq]
      by_cases hb : it0.producto_id = item.producto_id <;> simp [hb]
  | none =>
      rw [hf] at hit
      simp only [List.mem_append, List.mem_singleton] at hit
      cases hit with
      | inl h0 => exact Or.inr ⟨it, h0, rfl⟩
      | inr h0 => exact Or.inl (by rw [h0])

/-- The merged cart stores exactly the recomputation of its own items
against the product list used for the merge. -/
lemma agregar_item_total (carrito : Carrito) (item : ItemCarrito)
    (lista : List Producto) :
    (fn_agregar_item_al_carrito carrito item lista).total
      = fn_recalcular_total (fn_agregar_item_al_carrito carrito item lista) lista := rfl

/-- The recomputed total of a cleared cart is zero. -/
lemma recalcular_limpiar (c : Carrito) (l : List Producto) :
    fn_recalcular_total (fn_limpiar_carrito c) l = 0 := by
  unfold fn_recalcular_total fn_limpiar_carrito
  simpa using round2_zero

lemma length_filterMap_of_forall_some {α β : Type} (f : α → Option β) (l : List α)
    (h : ∀ a ∈ l, (f a).isSome) : (l.filterMap f).length = l.length := by
  induction l with
  | nil => rfl
  | cons a t ih =>
      cases hf : f a with
      | none =>
          have := h a (List.mem_cons_self a t)
          rw [hf] at this
          exact absurd this (by simp)
      | some b =>
          rw [List.filterMap_cons_some hf, List.length_cons, List.length_cons,
            ih (fun x hx => h x (List.mem_cons_of_mem a hx))]

/-- The two cart invariants hold in every reachable state: every cart item
references an existing product, and every cart's stored total is the
recomputation from current items and current prices. -/
lemma reachable_inv (db : DB) (h : Reachable db) : itemsValid db ∧ totalsValid db := by
  induction h with
  | init =>
      constructor
      · intro c hc it hit
        simp only [initDB, db_carritos_init, List.mem_singleton] at hc
        subst hc
        exact absurd hit (by simp)
      · intro c hc
        simp only [initDB, db_carritos_init, List.mem_singleton] at hc
        subst hc
        show (0 : ℚ) = fn_recalcular_total { id := 1 } db_productos_init
        unfold fn_recalcular_total
        simpa using round2_zero.symm
  | step db op hdb ih =>
      obtain ⟨hitems, htotals⟩ := ih
      cases op with
      | listarProductos => exact ⟨hitems, htotals⟩
      | obtenerProducto idp => exact ⟨hitems, htotals⟩
      | verCarrito cid => exact ⟨hitems, htotals⟩
      | listarPedidos => exact ⟨hitems, htotals⟩
      | crearProducto p =>
          cases hq : crear_nuevo_producto db p with
          | error e => simp only [applyOp, hq]; exact ⟨hitems, htotals⟩
          | ok v =>
              obtain ⟨-, -, hdb'⟩ := crear_ok_shape db p v.1 v.2 (by rw [hq])
              simp only [applyOp, hq, hdb']
              constructor
              · intro c hc it hit
                obtain ⟨p0, hp0⟩ := hitems c hc it hit
                exact ⟨p0, buscar_append_of_some _ _ _ _ hp0⟩
              · intro c hc
                rw [htotals c hc]
                apply (recalcular_congr c db.db_productos _ ?_).symm
                intro it hit
                obtain ⟨p0, hp0⟩ := hitems c hc it hit
                rw [buscar_append_of_some _ _ _ _ hp0, hp0]
      | descontarStock idp cantidad =>
          cases hq : descontar_stock_de_producto db idp cantidad with
          | error e => simp only [applyOp, hq]; exact ⟨hitems, htotals⟩
          | ok v =>
              obtain ⟨-, -, -, hdb'⟩ := descontar_ok_shape db idp cantidad v.1 v.2 (by rw [hq])
              simp only [applyOp, hq, hdb']
              constructor
              · intro c hc it hit
                obtain ⟨p0, hp0⟩ := hitems c hc it hit
                refine ⟨(fun q => if q.id != idp then q
                    else { q with stock := q.stock - cantidad }) p0, ?_⟩
                show fn_buscar_producto (fn_actualizar_stock db.db_productos idp cantidad)
                    it.producto_id = _
                unfold fn_actualizar_stock
                rw [buscar_producto_map _ _ _ (actualizar_stock_id_preserving idp cantidad), hp0]
                rfl
              · intro c hc
                rw [htotals c hc]
                show fn_recalcular_total c db.db_productos
                    = fn_recalcular_total c (fn_actualizar_stock db.db_productos idp cantidad)
                unfold fn_actualizar_stock
                exact (recalcular_map c db.db_productos _
                  (actualizar_stock_id_preserving idp cantidad)
                  (fun p => by by_cases hb : p.id = idp <;> simp [hb])).symm
      | agregarItem cid item =>
          cases hq : agregar_item_al_carrito db cid item with
          | error e => simp only [applyOp, hq]; exact ⟨hitems, htotals⟩
          | ok v =>
              obtain ⟨carrito, producto, hc, hp, -, hx, hdb'⟩ :=
                agregar_ok_shape db cid item v.1 v.2 (by rw [hq])
              simp only [applyOp, hq, hdb']
              have hcar : carrito ∈ db.db_carritos := (buscar_carrito_some _ _ _ hc).1
              constructor
              · intro c hcm it hit
                cases mem_actualizar_carrito _ _ _ hcm with
                | inl hcu =>
                    subst hcu
                    rw [hx] at hit
                    cases agregar_item_pids carrito item db.db_productos it hit with
                    | inl hpid => exact ⟨producto, by rw [hpid]; exact hp⟩
                    | inr hold =>
                        obtain ⟨it0, hit0, hpid⟩ := hold
                        obtain ⟨p0, hp0⟩ := hitems carrito hcar it0 hit0
                        exact ⟨p0, by rw [hpid]; exact hp0⟩
                | inr hold => exact hitems c hold.1 it hit
              · intro c hcm
                cases mem_actualizar_carrito _ _ _ hcm with
                | inl hcu =>
                    subst hcu
                    rw [hx]
                    exact agregar_item_total carrito item db.db_productos
                | inr hold => exact htotals c hold.1
      | checkout cid fecha =>
          cases hq : procesar_checkout_carrito db cid fecha with
          | error e => simp only [applyOp, hq]; exact ⟨hitems, htotals⟩
          | ok v =>
              obtain ⟨carrito, -, -, -, hdb'⟩ :=
                checkout_ok_shape db cid fecha v.1 v.2 (by rw [hq])
              simp only [applyOp, hq, hdb']
              constructor
              · intro c hcm it hit
                cases mem_actualizar_carrito _ _ _ hcm with
                | inl hcu =>
                    subst hcu
                    exact absurd hit (by simp [fn_limpiar_carrito])
                | inr hold =>
                    obtain ⟨p0, hp0⟩ := hitems c hold.1 it hit
                    refine ⟨(fun p => { p with
                        stock := p.stock - sumCant carrito.items p.id }) p0, ?_⟩
                    show fn_buscar_producto
                        (fn_descontar_stock_de_pedido db.db_productos carrito)
                        it.producto_id = _
                    rw [descontar_eq_map, buscar_producto_map _ _
                      (fun p => { p with stock := p.stock - sumCant carrito.items p.id })
                      (fun p => rfl), hp0]
                    rfl
              · intro c hcm
                cases mem_actualizar_carrito _ _ _ hcm with
                | inl hcu =>
                    subst hcu
                    show (0 : ℚ) = _
                    exact (recalcular_limpiar carrito _).symm
                | inr hold =>
                    rw [htotals c hold.1]
                    show fn_recalcular_total c db.db_productos
                        = fn_recalcular_total c
                            (fn_descontar_stock_de_pedido db.db_productos carrito)
                    rw [descontar_eq_map]
                    exact (recalcular_map c db.db_productos
                      (fun p => { p with stock := p.stock - sumCant carrito.items p.id })
                      (fun p => rfl) (fun p => rfl)).symm

/-- C3.  In every reachable state every cart stores exactly the total
recomputed from its current items and current product prices (rounded to
two decimals inside fn_recalcular_total); moreover after any successful
checkout the checked-out cart is left with empty items and total exactly 0. -/
theorem C3_total_invariant (db : DB) (h : Reachable db) :
    (∀ c ∈ db.db_carritos, c.total = fn_recalcular_total c db.db_productos) ∧
    (∀ carrito_id fecha ped db',
      procesar_checkout_carrito db carrito_id fecha = .ok (ped, db') →
      ∀ c ∈ db'.db_carritos, c.id = carrito_id → c.items = [] ∧ c.total = 0) := by
  refine ⟨(reachable_inv db h).2, ?_⟩
  intro cid fecha ped db' hck c hcm hcid
  obtain ⟨carrito, hbc, -, -, hdb'⟩ := checkout_ok_shape db cid fecha ped db' hck
  rw [hdb'] at hcm
  cases mem_actualizar_carrito db.db_carritos (fn_limpiar_carrito carrito) c hcm with
  | inl hcu => subst hcu; exact ⟨rfl, rfl⟩
  | inr hold =>
      exfalso
      apply hold.2
      show c.id = (fn_limpiar_carrito carrito).id
      rw [hcid]
      show cid = carrito.id
      exact ((buscar_carrito_some db.db_carritos cid carrito hbc).2).symm

/-- Witness for C3: in the reachable state where one keyboard was added to
cart 1, the stored cart total is the recomputation from items and prices. -/
theorem C3_total_invariant_witness :
    (fn_agregar_item_al_carrito { id := 1 } ⟨2, 1⟩ db_productos_init).total
      = fn_recalcular_total
          (fn_agregar_item_al_carrito { id := 1 } ⟨2, 1⟩ db_productos_init)
          (applyOp initDB (Op.agregarItem 1 ⟨2, 1⟩)).db_productos := by
  have h := (C3_total_invariant (applyOp initDB (Op.agregarItem 1 ⟨2, 1⟩))
    (Reachable.step initDB (Op.agregarItem 1 ⟨2, 1⟩) Reachable.init)).1
  apply h
  exact List.Mem.head _

/-- C10.  In every reachable state every item of every cart references a
product id present in the product list, so the missing-product fallbacks
are dead: fn_recalcular_total never hits its 0.0 branch there, and
fn_convertir_carrito_a_pedido drops no item, producing an order with
exactly as many items as the cart. -/
theorem C10_items_reference_products (db : DB) (h : Reachable db) :
    ∀ c ∈ db.db_carritos,
      (∀ it ∈ c.items,
        ∃ p, fn_buscar_producto db.db_productos it.producto_id = some p) ∧
      ∀ nuevo_id fecha,
        (fn_convertir_carrito_a_pedido c db.db_productos nuevo_id fecha).items.length
          = c.items.length := by
  intro c hc
  have hiv := (reachable_inv db h).1 c hc
  refine ⟨hiv, ?_⟩
  intro nuevo_id fecha
  unfold fn_convertir_carrito_a_pedido
  apply length_filterMap_of_forall_some
  intro item_c hit
  obtain ⟨p, hp⟩ := hiv item_c hit
  simp only [hp]
  rfl

/-- Witness for C10: in the reachable state where one keyboard was added
to cart 1, the cart's single item resolves to a product and the cart
converts to an order of the same length. -/
theorem C10_items_reference_products_witness :
    (∃ p, fn_buscar_producto (applyOp initDB (Op.agregarItem 1 ⟨2, 1⟩)).db_productos
        ((⟨2, 1⟩ : ItemCarrito).producto_id) = some p) ∧
    List.length (Pedido.items (fn_convertir_carrito_a_pedido
        (fn_agregar_item_al_carrito { id := 1 } ⟨2, 1⟩ db_productos_init)
        (applyOp initDB (Op.agregarItem 1 ⟨2, 1⟩)).db_productos 1 "2024-01-01T00:00:00"))
      = (fn_agregar_item_al_carrito { id := 1 } ⟨2, 1⟩ db_productos_init).items.length := by
  have h := C10_items_reference_products (applyOp initDB (Op.agregarItem 1 ⟨2, 1⟩))
    (Reachable.step initDB (Op.agregarItem 1 ⟨2, 1⟩) Reachable.init)
    (fn_agregar_item_al_carrito { id := 1 } ⟨2, 1⟩ db_productos_init)
    (List.Mem.head _)
  exact ⟨h.1 ⟨2, 1⟩ (List.Mem.head _), h.2 1 "2024-01-01T00:00:00"⟩
